import Mathlib

/-!
# Verification of the jobscrapper ingestion pipeline

Shallow embedding of the repository's core modules:

* `src/storage.py`  — content-addressed dedup store (`JobStorage`)
* `src/filters.py`  — keyword/geo filter (`filter_jobs`)
* `src/scraper.py`  — rate-limited retriever (`JobScraper.scrape_site`)
* `src/main.py`     — pipeline driver (`process_jobs`) and scheduler loop

Python dict-shaped job records are modelled as a record of `Option String`
fields (a missing dict key is `none`).  Python string operations
(`str.lower`, `str.strip`, substring `in`) are modelled over their ASCII
fragment, which is the fragment exercised by every concrete input below.
`hashlib.sha256(...).hexdigest()` is modelled by an executable SHA-256 over
the UTF-8 bytes of the input string, checked against the standard test
vectors.  The SQLite `seen_jobs` table is modelled as a list of rows, with
timestamps as integer seconds and `INSERT OR IGNORE` as a guarded append.
-/

namespace JobScrapper

/-! ## Python string primitives -/

/-- The characters Python's default `str.strip()` removes (ASCII fragment). -/
def isPySpace (c : Char) : Bool :=
  c = ' ' || c = '\t' || c = '\n' || c = '\x0d' || c = '\x0b' || c = '\x0c'

/-- ASCII lowercasing of one character, as in Python `str.lower()` on ASCII. -/
def pyLowerChar (c : Char) : Char :=
  if 'A' ≤ c ∧ c ≤ 'Z' then Char.ofNat (c.toNat + 32) else c

/-- Python `str.lower()` (ASCII fragment). -/
def pyLower (s : String) : String :=
  ⟨s.data.map pyLowerChar⟩

/-- Drop leading and trailing whitespace from a character list. -/
def stripChars (l : List Char) : List Char :=
  ((l.dropWhile isPySpace).reverse.dropWhile isPySpace).reverse

/-- Python `str.strip()`: drop leading and trailing whitespace. -/
def pyStrip (s : String) : String :=
  ⟨stripChars s.data⟩

/-- Python's substring test `needle in hay`. -/
def pyContains (hay needle : String) : Bool :=
  (List.range (hay.data.length + 1)).any
    (fun i => needle.data.isPrefixOf (hay.data.drop i))

/-! ## UTF-8 encoding (Python `str.encode()`) -/

/-- UTF-8 bytes of a single code point. -/
def utf8Char (c : Char) : List Nat :=
  let n := c.toNat
  if n < 0x80 then [n]
  else if n < 0x800 then
    [0xC0 + n / 64, 0x80 + n % 64]
  else if n < 0x10000 then
    [0xE0 + n / 4096, 0x80 + (n / 64) % 64, 0x80 + n % 64]
  else
    [0xF0 + n / 262144, 0x80 + (n / 4096) % 64, 0x80 + (n / 64) % 64,
     0x80 + n % 64]

/-- Python `s.encode()`: UTF-8 bytes of a string. -/
def utf8Bytes (s : String) : List Nat :=
  s.data.flatMap utf8Char

/-! ## SHA-256 (`hashlib.sha256`), executable over `Nat` mod 2^32 -/

def w32 : Nat := 4294967296

def add32 (a b : Nat) : Nat := (a + b) % w32

def rotr32 (n x : Nat) : Nat :=
  ((x >>> n) ||| (x <<< (32 - n))) % w32

def shaK : List Nat :=
  [1116352408, 1899447441, 3049323471, 3921009573, 961987163,
   1508970993, 2453635748, 2870763221, 3624381080, 310598401,
   607225278, 1426881987, 1925078388, 2162078206, 2614888103,
   3248222580, 3835390401, 4022224774, 264347078, 604807628,
   770255983, 1249150122, 1555081692, 1996064986, 2554220882,
   2821834349, 2952996808, 3210313671, 3336571891, 3584528711,
   113926993, 338241895, 666307205, 773529912, 1294757372,
   1396182291, 1695183700, 1986661051, 2177026350, 2456956037,
   2730485921, 2820302411, 3259730800, 3345764771, 3516065817,
   3600352804, 4094571909, 275423344, 430227734, 506948616,
   659060556, 883997877, 958139571, 1322822218, 1537002063,
   1747873779, 1955562222, 2024104815, 2227730452, 2361852424,
   2428436474, 2756734187, 3204031479, 3329325298]

def shaH0 : List Nat :=
  [1779033703, 3144134277, 1013904242, 2773480762,
   1359893119, 2600822924, 528734635, 1541459225]

/-- Big-endian bytes of `n`, `k` bytes long. -/
def beBytes (k n : Nat) : List Nat :=
  (List.range k).reverse.map (fun i => (n >>> (8 * i)) % 256)

/-- SHA-256 padding: append `0x80`, zeros, and the 64-bit bit length. -/
def shaPad (msg : List Nat) : List Nat :=
  let len := msg.length
  let zeros := (64 - (len + 9) % 64) % 64
  msg ++ [0x80] ++ List.replicate zeros 0 ++ beBytes 8 (8 * len)

/-- Helper for `chunks`: structural recursion with reversed accumulator. -/
def chunksGo (k : Nat) : List Nat → List Nat → List (List Nat)
  | [], acc => if acc = [] then [] else [acc.reverse]
  | x :: xs, acc =>
    if acc.length + 1 = k then (x :: acc).reverse :: chunksGo k xs []
    else chunksGo k xs (x :: acc)

/-- Split a list into chunks of length `k` (length assumed a multiple). -/
def chunks (k : Nat) (l : List Nat) : List (List Nat) :=
  chunksGo k l []

/-- A 32-bit big-endian word from 4 bytes. -/
def wordOfBytes : List Nat → Nat
  | [a, b, c, d] => a * 16777216 + b * 65536 + c * 256 + d
  | _ => 0

/-- Extend 16 message words to the 64-word schedule. -/
def shaSchedule (ws : List Nat) (i : Nat) : List Nat :=
  match i with
  | 0 => ws
  | i + 1 =>
    let ws := shaSchedule ws i
    let n := ws.length
    let g := fun k => ws.getD (n - k) 0
    let w15 := g 15
    let w2 := g 2
    let s0 := (rotr32 7 w15) ^^^ (rotr32 18 w15) ^^^ (w15 >>> 3)
    let s1 := (rotr32 17 w2) ^^^ (rotr32 19 w2) ^^^ (w2 >>> 10)
    ws ++ [(g 16 + s0 + g 7 + s1) % w32]

/-- One round of the SHA-256 compression function. -/
def shaRound (st : List Nat) (kw : Nat × Nat) : List Nat :=
  match st with
  | [a, b, c, d, e, f, g, h] =>
    let s1 := (rotr32 6 e) ^^^ (rotr32 11 e) ^^^ (rotr32 25 e)
    let ch := (e &&& f) ^^^ ((w32 - 1 - e) &&& g)
    let t1 := (h + s1 + ch + kw.1 + kw.2) % w32
    let s0 := (rotr32 2 a) ^^^ (rotr32 13 a) ^^^ (rotr32 22 a)
    let mj := (a &&& b) ^^^ (a &&& c) ^^^ (b &&& c)
    let t2 := (s0 + mj) % w32
    [add32 t1 t2, a, b, c, add32 d t1, e, f, g]
  | st => st

/-- Process one 64-byte block into the running hash state. -/
def shaBlock (h : List Nat) (block : List Nat) : List Nat :=
  let ws := shaSchedule ((chunks 4 block).map wordOfBytes) 48
  let st := (shaK.zip ws).foldl shaRound h
  (h.zip st).map (fun p => add32 p.1 p.2)

/-- Lowercase hex digit. -/
def hexChar (n : Nat) : Char :=
  if n < 10 then Char.ofNat (48 + n) else Char.ofNat (87 + n)

/-- 8-hex-digit rendering of a 32-bit word. -/
def hexWord (n : Nat) : List Char :=
  (List.range 8).reverse.map (fun i => hexChar ((n >>> (4 * i)) % 16))

/-- Model of `hashlib.sha256(bytes).hexdigest()`. -/
def sha256hex (msg : List Nat) : String :=
  ⟨((chunks 64 (shaPad msg)).foldl shaBlock shaH0).flatMap hexWord⟩

/-! ## Data model

A job record is a Python dict; a missing key is `none`.  `src/filters.py`
additionally collapses pandas `NaN` values to `""` via `_clean_str`; a `NaN`
value is modelled as `none`, which `_clean_str` sends to `""` the same way. -/

structure Job where
  title : Option String := none
  company : Option String := none
  location : Option String := none
  description : Option String := none
  job_url : Option String := none
  site : Option String := none
  date_posted : Option String := none
  min_amount : Option String := none
  max_amount : Option String := none
  currency : Option String := none
  _job_id : Option String := none
deriving DecidableEq, Repr

/-- A row of the `seen_jobs` SQLite table (`src/storage.py`, `_init_db`);
`seen_at` is in integer seconds. -/
structure SeenRecord where
  job_id : String
  title : String
  company : String
  url : String
  site : String
  seen_at : Int
deriving DecidableEq, Repr

/-- The `seen_jobs` table, `job_id` being its primary key. -/
abbrev Store := List SeenRecord

/-! ## `src/storage.py` (`JobStorage`) -/

/-- Line 31: `raw = f"{url}|{company}|{title}".lower().strip()`. -/
def normalizeRaw (url company title : String) : String :=
  pyStrip (pyLower (url ++ "|" ++ company ++ "|" ++ title))

/-- Model of `JobStorage.generate_job_id`: sha256 hexdigest of the normalized raw
string, truncated to 16 hex characters. -/
def generate_job_id (url company title : String) : String :=
  ⟨(sha256hex (utf8Bytes (normalizeRaw url company title))).data.take 16⟩

/-- The Fingerprint `filter_new_jobs` computes for a job record, from its
`job_url`, `company` and `title` keys (missing keys default to `""`). -/
def jobId (j : Job) : String :=
  generate_job_id (j.job_url.getD "") (j.company.getD "") (j.title.getD "")

/-- Model of `JobStorage.is_seen`: a row with this `job_id` exists. -/
def is_seen (store : Store) (job_id : String) : Bool :=
  store.any (fun r => r.job_id = job_id)

/-- Model of `JobStorage.mark_seen`: `INSERT OR IGNORE` — on a primary-key conflict
the row is left untouched; otherwise a row with the current timestamp is
inserted. -/
def mark_seen (store : Store) (now : Int)
    (job_id title company url site : String) : Store :=
  if is_seen store job_id then store
  else store ++ [⟨job_id, title, company, url, site, now⟩]

/-- The per-job body of `JobStorage.filter_new_jobs`, with the batch-local
`seen_in_batch` set as an accumulator. -/
def filterNewGo (store : Store) : List Job → List String → List Job
  | [], _ => []
  | j :: rest, seen_in_batch =>
    let job_id := jobId j
    if seen_in_batch.contains job_id || is_seen store job_id then
      filterNewGo store rest seen_in_batch
    else
      { j with _job_id := some job_id } ::
        filterNewGo store rest (job_id :: seen_in_batch)

/-- Model of `JobStorage.filter_new_jobs`: keep jobs whose id is in neither the
batch-local set nor the database; surviving jobs get `job["_job_id"]` set. -/
def filter_new_jobs (store : Store) (jobs : List Job) : List Job :=
  filterNewGo store jobs []

/-- Model of `JobStorage.mark_jobs_seen`: `job.get("_job_id") or generate_job_id(...)`
(Python `or`: `None` and `""` both fall through to recomputing). -/
def mark_jobs_seen (store : Store) (now : Int) (jobs : List Job) : Store :=
  jobs.foldl
    (fun st j =>
      let job_id :=
        match j._job_id with
        | some s => if s = "" then jobId j else s
        | none => jobId j
      mark_seen st now job_id (j.title.getD "") (j.company.getD "")
        (j.job_url.getD "") (j.site.getD ""))
    store

/-- Model of `JobStorage.cleanup_old`:
`DELETE FROM seen_jobs WHERE seen_at < datetime('now', '-{days} days')`. -/
def cleanup_old (store : Store) (now : Int) (days : Int) : Store :=
  store.filter (fun r => !(r.seen_at < now - days * 86400))

/-! ## `src/filters.py` -/

/-- Model of `_clean_str`: `None` (and pandas `NaN`) become `""`; other values are
lowercased then stripped. -/
def _clean_str (v : Option String) : String :=
  match v with
  | none => ""
  | some s => pyStrip (pyLower s)

def REMOTE_KEYWORDS : List String :=
  ["remote", "remoto", "teletrabajo", "trabajo remoto", "full remote",
   "100% remote", "fully remote", "work from home", "wfh"]

def SPAIN_KEYWORDS : List String :=
  ["spain", "espa침a", "kingdom of spain", "madrid", "barcelona", "valencia",
   "sevilla", "bilbao", "m치laga", "malaga", "zaragoza", "murcia", "palma",
   "las palmas", "alicante", "c칩rdoba", "cordoba", "valladolid", "gij칩n",
   "gijon", "granada", ", es"]

/-- Model of `_is_remote`: any remote keyword occurs in `"{title} {location}
{description}"`. -/
def _is_remote (j : Job) : Bool :=
  let text := _clean_str j.title ++ " " ++ _clean_str j.location ++ " "
    ++ _clean_str j.description
  REMOTE_KEYWORDS.any (fun kw => pyContains text kw)

/-- Model of `_is_spain`: any Spain keyword occurs in `"{location} {description}"`. -/
def _is_spain (j : Job) : Bool :=
  let text := _clean_str j.location ++ " " ++ _clean_str j.description
  SPAIN_KEYWORDS.any (fun kw => pyContains text kw)

/-- The four exclusion counters of `filter_jobs` (diagnostics only). -/
structure FilterCounts where
  excluded_title : Nat := 0
  excluded_location : Nat := 0
  excluded_not_spain : Nat := 0
  excluded_not_remote : Nat := 0
deriving DecidableEq, Repr

/-- The per-job loop of `filter_jobs`, over already-lowercased keyword
lists; each `continue` branch increments its exclusion counter. -/
def filterJobsGo (tks lbs : List String) (remote_only spain_only : Bool) :
    List Job → List Job × FilterCounts
  | [] => ([], {})
  | j :: rest =>
    let r := filterJobsGo tks lbs remote_only spain_only rest
    let title := _clean_str j.title
    let location := _clean_str j.location
    if !tks.isEmpty && !(tks.any fun kw => pyContains title kw) then
      (r.1, { r.2 with excluded_title := r.2.excluded_title + 1 })
    else if !lbs.isEmpty && (lbs.any fun bl => pyContains location bl) then
      (r.1, { r.2 with excluded_location := r.2.excluded_location + 1 })
    else if spain_only && !(_is_spain j) then
      (r.1, { r.2 with excluded_not_spain := r.2.excluded_not_spain + 1 })
    else if remote_only && !(_is_remote j) then
      (r.1, { r.2 with excluded_not_remote := r.2.excluded_not_remote + 1 })
    else (j :: r.1, r.2)

/-- Model of `filter_jobs`: Python `None` option lists are modelled as `[]` (both are
falsy); the fast path returns the input unchanged when no option is set. -/
def filter_jobs (jobs : List Job) (title_must_contain location_exclude :
    List String) (remote_only spain_only : Bool) : List Job × FilterCounts :=
  if title_must_contain.isEmpty && location_exclude.isEmpty && !remote_only
      && !spain_only then
    (jobs, {})
  else
    filterJobsGo (title_must_contain.map pyLower) (location_exclude.map pyLower)
      remote_only spain_only jobs

/-! ## `src/scraper.py` (`JobScraper.scrape_site`)

The external `jobspy.scrape_jobs` call is the collaborator: one outcome per
attempt number, either a row list (`df.to_dict("records")`, with `None` /
empty dataframes modelled as `[]`) or a raised exception's message.  Delays
are exact rationals (every delay in `DEFAULT_RATE_LIMITS` is exactly
representable, so float rounding plays no role); the `time.sleep` calls are
recorded in order in the result. -/

inductive ScrapeOutcome where
  | success (rows : List Job)
  | error (msg : String)

/-- Test `"429" in error_msg or "rate" in error_msg` after `str(e).lower()`. -/
def isRateLimitMsg (msg : String) : Bool :=
  pyContains (pyLower msg) "429" || pyContains (pyLower msg) "rate"

structure ScrapeResult where
  rows : List Job
  sleeps : List ℚ
  linkedin_429 : Bool
deriving DecidableEq

/-- The `for attempt in range(max_retries)` loop of `scrape_site`, over the
remaining attempt numbers; `flag` is `self.linkedin_429`. -/
def scrapeLoop (site : String) (delay backoff : ℚ) (max_retries : Nat)
    (outcomes : Nat → ScrapeOutcome) :
    List Nat → Bool → List ℚ → ScrapeResult
  | [], flag, sleeps => ⟨[], sleeps, flag⟩
  | a :: rest, flag, sleeps =>
    match outcomes a with
    | .success rows => ⟨rows, sleeps ++ [delay], flag⟩
    | .error msg =>
      if isRateLimitMsg msg then
        scrapeLoop site delay backoff max_retries outcomes rest
          (flag || site == "linkedin") (sleeps ++ [delay * backoff ^ a])
      else if a == max_retries - 1 then ⟨[], sleeps, flag⟩
      else scrapeLoop site delay backoff max_retries outcomes rest flag
        (sleeps ++ [delay])

/-- Model of `JobScraper.scrape_site` for one site/query pair; `flag0` is the value
of `self.linkedin_429` on entry. -/
def scrape_site (site : String) (delay backoff : ℚ) (max_retries : Nat)
    (outcomes : Nat → ScrapeOutcome) (flag0 : Bool) : ScrapeResult :=
  scrapeLoop site delay backoff max_retries outcomes
    (List.range max_retries) flag0 []

/-! ## `src/main.py` -/

/-- The filter options `process_jobs` reads from the config (absent keys are
falsy: `[]` / `false`). -/
structure Config where
  title_must_contain : List String := []
  location_exclude : List String := []
  remote_only : Bool := false
  spain_only : Bool := false
deriving DecidableEq, Repr

/-- Observable pipeline stages of one `process_jobs` call, in execution
order; the side-effecting stages carry the job list they act on. -/
inductive PipeEvent where
  | filterStage (survivors : List Job)
  | dedupStage (survivors : List Job)
  | markSeenStage (jobs : List Job)
  | notifyStage (jobs : List Job)
deriving DecidableEq, Repr

def isMarkSeenEv : PipeEvent → Bool
  | .markSeenStage _ => true
  | _ => false

def isNotifyEv : PipeEvent → Bool
  | .notifyStage _ => true
  | _ => false

/-- Model of `main.process_jobs`: filter, dedupe, and — when survivors exist —
`mark_jobs_seen` followed by `notifier.notify`.  The notifier collaborator's
return value is the `notifySucceeds` parameter; `now` is the clock value the
store stamps new rows with.  Returns the summary string, the updated store,
and the stage trace. -/
def process_jobs (jobs : List Job) (config : Config) (store : Store)
    (notifySucceeds : Bool) (source : String) (linkedin_429 : Bool)
    (now : Int) : String × Store × List PipeEvent :=
  if jobs.isEmpty then (source ++ ": 0 scraped", store, [])
  else
    let jobs2 := (filter_jobs jobs config.title_must_contain
      config.location_exclude config.remote_only config.spain_only).1
    let new_jobs := filter_new_jobs store jobs2
    let summary := source ++ ": " ++ toString jobs.length ++ " → "
      ++ toString jobs2.length ++ " → " ++ toString new_jobs.length ++ " new"
    let store2 := if new_jobs.isEmpty then store
      else mark_jobs_seen store now new_jobs
    let summary2 :=
      if new_jobs.isEmpty then summary
      else if notifySucceeds then summary ++ " ✓"
      else summary ++ " (notify failed)"
    let trace :=
      [PipeEvent.filterStage jobs2, PipeEvent.dedupStage new_jobs] ++
        (if new_jobs.isEmpty then []
         else [PipeEvent.markSeenStage new_jobs, PipeEvent.notifyStage new_jobs])
    let summary3 := if linkedin_429 then summary2 ++ " [429]" else summary2
    (summary3, store2, trace)

/-- The scheduler's per-family poll state in `main.main`
(`last_jobspy_run` / `last_jooble_run`) together with the storage. -/
structure SchedulerState where
  last_jobspy_run : Int
  last_jooble_run : Int
  store : Store
deriving DecidableEq

/-- One iteration of the `while True` scheduler loop in `main.main`.  The
two source families' scrape calls are collaborators: an `Except` value per
family, `.error` standing for the exception the `try` block catches and
logs.  On `.error` nothing else in the branch runs — in particular the
`last_*_run = now` assignment at the end of the `try` block is skipped.
The cleanup sweep runs every tick. -/
def schedulerTick (st : SchedulerState) (now : Int) (sites : List String)
    (joobleEnabled : Bool) (jobspy_interval jooble_interval : Int)
    (config : Config) (jobspyResult joobleResult : Except String (List Job))
    (jobspyFlag notifySucceeds : Bool) : SchedulerState :=
  let st1 :=
    if sites ≠ [] ∧ jobspy_interval ≤ now - st.last_jobspy_run then
      match jobspyResult with
      | .ok jobs =>
        let r := process_jobs jobs config st.store notifySucceeds "JobSpy"
          jobspyFlag now
        { st with store := r.2.1, last_jobspy_run := now }
      | .error _ => st
    else st
  let st2 :=
    if joobleEnabled ∧ jooble_interval ≤ now - st1.last_jooble_run then
      match joobleResult with
      | .ok jobs =>
        let r := process_jobs jobs config st1.store notifySucceeds "Jooble"
          false now
        { st1 with store := r.2.1, last_jooble_run := now }
      | .error _ => st1
    else st1
  { st2 with store := cleanup_old st2.store now 30 }

/-! ## Claim-side (specification) definitions -/

/-- A job as `filter_new_jobs` returns it: `job["_job_id"]` set to its
Fingerprint. -/
def withJobId (j : Job) : Job :=
  { j with _job_id := some (jobId j) }

/-- Specification-side selection for `filter_new_jobs`: keep a listing iff
its Fingerprint is neither already persisted nor the Fingerprint of **any
earlier listing of the same batch** (`earlier` accumulates the Fingerprints
of all listings already scanned, kept or not). -/
def newSel (store : Store) : List Job → List String → List Job
  | [], _ => []
  | j :: rest, earlier =>
    let r := newSel store rest (earlier ++ [jobId j])
    if !(is_seen store (jobId j)) && !(earlier.contains (jobId j)) then
      j :: r
    else r

/-- Modelled from the spec: the "case-normalized and whitespace-trimmed"
`(url, company, title)` triple, read as normalizing **each field**
(`src/storage.py` itself only normalizes the joined string). -/
def specNormalizedTriple (url company title : String) :
    String × String × String :=
  (pyStrip (pyLower url), pyStrip (pyLower company), pyStrip (pyLower title))

/-- Specification-side filter predicate: the four `filter_jobs` predicates
ANDed, over already-lowercased keyword lists.  The conjunction is symmetric,
so any check order yields the same survivor set. -/
def passesAllFilters (tks lbs : List String) (remote_only spain_only : Bool)
    (j : Job) : Bool :=
  (tks.isEmpty || (tks.any fun kw => pyContains (_clean_str j.title) kw))
    && !(lbs.any fun bl => pyContains (_clean_str j.location) bl)
    && (!spain_only || _is_spain j)
    && (!remote_only || _is_remote j)

/-- The listings surviving the filter stage of one `process_jobs` call. -/
def pipelineFiltered (jobs : List Job) (config : Config) : List Job :=
  (filter_jobs jobs config.title_must_contain config.location_exclude
    config.remote_only config.spain_only).1

/-- The listings surviving both the filter and the dedup stage of one
`process_jobs` call. -/
def pipelineSurvivors (jobs : List Job) (config : Config) (store : Store) :
    List Job :=
  filter_new_jobs store (pipelineFiltered jobs config)

/-! ## Concrete sample inputs -/

def sampleJob : Job :=
  { title := some "Senior Designer", company := some "Acme",
    location := some "Madrid, Spain", job_url := some "https://x.example/j/1",
    site := some "linkedin" }

/-- Same identity triple as `sampleJob`, different description. -/
def sampleJobAlt : Job :=
  { sampleJob with description := some "fully remote team" }

/-- A `seen_jobs` row for `sampleJob`, first sighted at time 100. -/
def sampleRecord : SeenRecord :=
  ⟨"7c4a03fa094fe04c", "Senior Designer", "Acme", "https://x.example/j/1",
   "linkedin", 100⟩

/-! ## Sanity checks of the embedding -/

example : sha256hex (utf8Bytes "abc") =
    "ba7816bf8f01cfea414140de5dae2223b00361a396177a9cb410ff61f20015ad" := by
  decide

example : sha256hex (utf8Bytes "") =
    "e3b0c44298fc1c149afbf4c8996fb92427ae41e4649b934ca495991b7852b855" := by
  decide

example : jobId sampleJob = "7c4a03fa094fe04c" := by decide

example : generate_job_id "a" "b" "c" = "a52dd81bfd5e4e66" := by decide

/-! ## C2: Fingerprint determinism and independence from other fields -/

/-- C2: two listings with identical `(url, company, title)` — in particular
two whose normalized raw strings agree — get the same Fingerprint from
`generate_job_id`, regardless of description, salary or date differences,
and repeated calls on the same triple always return the same value. -/
theorem generate_job_id_deterministic :
    (∀ u c t : String, generate_job_id u c t = generate_job_id u c t) ∧
    (∀ j1 j2 : Job, j1.job_url = j2.job_url → j1.company = j2.company →
      j1.title = j2.title → jobId j1 = jobId j2) ∧
    (∀ u1 c1 t1 u2 c2 t2 : String,
      normalizeRaw u1 c1 t1 = normalizeRaw u2 c2 t2 →
      generate_job_id u1 c1 t1 = generate_job_id u2 c2 t2) := by
  refine ⟨fun _ _ _ => rfl, ?_, ?_⟩
  · intro j1 j2 h1 h2 h3
    unfold jobId
    rw [h1, h2, h3]
  · intro u1 c1 t1 u2 c2 t2 h
    unfold generate_job_id
    rw [h]

/-- Witness for C2 at concrete inputs: `sampleJobAlt` differs from
`sampleJob` only in its description, and `("A ", "b", "c")` normalizes like
`("a ", "b", "c")`. -/
theorem generate_job_id_deterministic_witness :
    jobId sampleJob = jobId sampleJobAlt ∧
    generate_job_id "A " "b" "c" = generate_job_id "a " "b" "c" :=
  ⟨generate_job_id_deterministic.2.1 sampleJob sampleJobAlt rfl rfl rfl,
   generate_job_id_deterministic.2.2 "A " "b" "c" "a " "b" "c" (by decide)⟩

/-! ## C7: `mark_seen` idempotence -/

/-- C7: when a listing's Fingerprint is already in the seen store,
`mark_seen` leaves the store unchanged — whatever display fields and
timestamp the repeated call carries, so the first-sighting timestamp is
never overwritten — and `filter_new_jobs` on a batch containing just that
listing returns no survivors. -/
theorem mark_seen_idempotent (store : Store) (now : Int) (j : Job)
    (t c u s : String) (h : is_seen store (jobId j) = true) :
    mark_seen store now (jobId j) t c u s = store ∧
    filter_new_jobs store [j] = [] := by
  constructor
  · simp [mark_seen, h]
  · simp [filter_new_jobs, filterNewGo, h]

/-- Witness for C7: a store already holding `sampleJob`'s Fingerprint. -/
theorem mark_seen_idempotent_witness :
    mark_seen [sampleRecord] 999 (jobId sampleJob) "Senior Designer" "Acme"
        "https://x.example/j/1" "linkedin" = [sampleRecord] ∧
    filter_new_jobs [sampleRecord] [sampleJob] = [] :=
  mark_seen_idempotent [sampleRecord] 999 sampleJob "Senior Designer" "Acme"
    "https://x.example/j/1" "linkedin" (by decide)

example :
    (filter_jobs [sampleJob] ["designer"] ["madrid"] false false).1 = [] := by
  decide

example :
    (filter_jobs [{ sampleJob with location := some "Valencia, Spain" }]
      ["designer"] ["madrid"] false false).1 =
      [{ sampleJob with location := some "Valencia, Spain" }] := by
  decide

/-! ## C8: retention expiry -/

/-- C8: `cleanup_old` removes every `SeenRecord` whose first-sighting
timestamp lies before the retention cutoff, and once every record carrying
a listing's Fingerprint has expired, `filter_new_jobs` treats that listing
as new again (a batch of just that listing survives dedup, tagged with its
Fingerprint). -/
theorem cleanup_old_expiry (store : Store) (now days : Int) (j : Job)
    (hall : ∀ r ∈ store, r.job_id = jobId j →
      r.seen_at < now - days * 86400) :
    (∀ r ∈ store, r.seen_at < now - days * 86400 →
      r ∉ cleanup_old store now days) ∧
    is_seen (cleanup_old store now days) (jobId j) = false ∧
    filter_new_jobs (cleanup_old store now days) [j] = [withJobId j] := by
  have hseen : is_seen (cleanup_old store now days) (jobId j) = false := by
    rw [is_seen, List.any_eq_false]
    intro r hr
    rw [cleanup_old, List.mem_filter] at hr
    intro hid
    have hlt := hall r hr.1 (by simpa using hid)
    have := hr.2
    simp [hlt] at this
  refine ⟨?_, hseen, ?_⟩
  · intro r hr hlt hmem
    rw [cleanup_old, List.mem_filter] at hmem
    simp [hlt] at hmem
  · simp [filter_new_jobs, filterNewGo, hseen, withJobId]

/-- Witness for C8: `sampleRecord` (first sighted at 100) is far older than
the 30-day window at time 10000000 and is swept; `sampleJob` then survives
dedup again. -/
theorem cleanup_old_expiry_witness :
    sampleRecord ∉ cleanup_old [sampleRecord] 10000000 30 ∧
    is_seen (cleanup_old [sampleRecord] 10000000 30) (jobId sampleJob)
      = false ∧
    filter_new_jobs (cleanup_old [sampleRecord] 10000000 30) [sampleJob]
      = [withJobId sampleJob] := by
  have h := cleanup_old_expiry [sampleRecord] 10000000 30 sampleJob
    (by intro r hr _; simp at hr; subst hr; decide)
  exact ⟨h.1 sampleRecord (by simp) (by decide), h.2.1, h.2.2⟩

/-! ## C9: filter AND-semantics -/

/-- The `filter_jobs` loop keeps exactly the jobs passing the ANDed
predicate, in input order; the counters never influence the list. -/
theorem filterJobsGo_fst (tks lbs : List String) (ro so : Bool) :
    ∀ jobs : List Job, (filterJobsGo tks lbs ro so jobs).1 =
      jobs.filter (passesAllFilters tks lbs ro so) := by
  intro jobs
  induction jobs with
  | nil => rfl
  | cons j rest ih =>
    simp only [filterJobsGo]
    rcases Bool.eq_false_or_eq_true (!tks.isEmpty
        && !(tks.any fun kw => pyContains (_clean_str j.title) kw))
      with h1 | h1
    case inl =>
      have hp : passesAllFilters tks lbs ro so j = false := by
        rw [Bool.and_eq_true] at h1
        simp only [Bool.not_eq_true'] at h1
        simp [passesAllFilters, h1.1, h1.2]
      rw [h1]
      simp [List.filter_cons, hp, ih]
    rcases Bool.eq_false_or_eq_true (!lbs.isEmpty
        && (lbs.any fun bl => pyContains (_clean_str j.location) bl))
      with h2 | h2
    case inl =>
      have hp : passesAllFilters tks lbs ro so j = false := by
        rw [Bool.and_eq_true] at h2
        simp [passesAllFilters, h2.2]
      rw [h1, h2]
      simp [List.filter_cons, hp, ih]
    rcases Bool.eq_false_or_eq_true (so && !(_is_spain j)) with h3 | h3
    case inl =>
      have hp : passesAllFilters tks lbs ro so j = false := by
        rw [Bool.and_eq_true] at h3
        simp only [Bool.not_eq_true'] at h3
        simp [passesAllFilters, h3.1, h3.2]
      rw [h1, h2, h3]
      simp [List.filter_cons, hp, ih]
    rcases Bool.eq_false_or_eq_true (ro && !(_is_remote j)) with h4 | h4
    case inl =>
      have hp : passesAllFilters tks lbs ro so j = false := by
        rw [Bool.and_eq_true] at h4
        simp only [Bool.not_eq_true'] at h4
        simp [passesAllFilters, h4.1, h4.2]
      rw [h1, h2, h3, h4]
      simp [List.filter_cons, hp, ih]
    have haux : lbs.isEmpty = true →
        (lbs.any fun bl => pyContains (_clean_str j.location) bl) = false := by
      intro h; rw [List.isEmpty_iff.mp h]; rfl
    have hp : passesAllFilters tks lbs ro so j = true := by
      simp only [passesAllFilters]
      revert h1 h2 h3 h4 haux
      generalize tks.isEmpty = te
      generalize (tks.any fun kw => pyContains (_clean_str j.title) kw) = aT
      generalize lbs.isEmpty = le
      generalize (lbs.any fun bl => pyContains (_clean_str j.location) bl) = aL
      generalize _is_spain j = sp
      generalize _is_remote j = rm
      clear ih
      intro h1 h2 h3 h4 haux
      cases te <;> cases aT <;> cases le <;> cases aL <;> cases sp <;>
        cases rm <;> cases ro <;> cases so <;> simp_all
    rw [h1, h2, h3, h4]
    simp [List.filter_cons, hp, ih]

/-- C9: `filter_jobs` returns exactly the listings satisfying the
conjunction of the four enabled predicates, in input order.  The right-hand
predicate `passesAllFilters` is a commutative conjunction of the four
checks, so the order in which `filter_jobs` tests them can only affect the
diagnostic counters, never the survivor set. -/
theorem filter_jobs_and_semantics (jobs : List Job) (tm le : List String)
    (ro so : Bool) :
    (filter_jobs jobs tm le ro so).1 =
      jobs.filter (passesAllFilters (tm.map pyLower) (le.map pyLower) ro so)
    := by
  rw [filter_jobs]
  split
  · rename_i h
    simp only [Bool.and_eq_true, Bool.not_eq_true'] at h
    obtain ⟨⟨⟨h1, h2⟩, h3⟩, h4⟩ := h
    rw [List.isEmpty_iff] at h1 h2
    subst h1 h2 h3 h4
    refine (List.filter_eq_self.mpr ?_).symm
    intro a _
    simp [passesAllFilters]
  · exact filterJobsGo_fst _ _ _ _ _

/-! ## C1: `filter_new_jobs` batch + persistent dedup -/

/-- Loop invariant of `filter_new_jobs`: the batch-local `seen_in_batch`
set holds exactly the Fingerprints of earlier batch listings that were not
already persisted — which makes the code's "kept earlier" check agree with
the claim's "any earlier listing" check (an earlier listing whose
Fingerprint is persisted forces the current duplicate out via the database
check instead). -/
theorem filterNewGo_eq_newSel (store : Store) :
    ∀ (jobs : List Job) (batchSeen earlier : List String),
      (∀ x, batchSeen.contains x = (earlier.contains x && !is_seen store x))
      → filterNewGo store jobs batchSeen =
          (newSel store jobs earlier).map withJobId := by
  intro jobs
  induction jobs with
  | nil => intro _ _ _; rfl
  | cons j rest ih =>
    intro batchSeen earlier hinv
    simp only [filterNewGo, newSel]
    rcases Bool.eq_false_or_eq_true (is_seen store (jobId j)) with hs | hs
    case inl =>
      have hb : batchSeen.contains (jobId j) = false := by
        rw [hinv (jobId j), hs]; simp
      rw [hb, hs]
      simp only [Bool.or_true, if_true, Bool.not_true, Bool.and_false,
        Bool.false_and, Bool.false_eq_true, if_false]
      apply ih
      intro x
      rcases eq_or_ne x (jobId j) with rfl | hx
      · rw [hb, hs]; simp
      · rw [hinv x]
        simp [hx]
    rcases Bool.eq_false_or_eq_true (earlier.contains (jobId j)) with he | he
    case inl =>
      have hb : batchSeen.contains (jobId j) = true := by
        rw [hinv (jobId j), hs, he]; rfl
      rw [hb, hs, he]
      simp only [Bool.true_or, if_true, Bool.not_false, Bool.not_true,
        Bool.true_and, Bool.and_false, Bool.false_eq_true, if_false]
      apply ih
      intro x
      rcases eq_or_ne x (jobId j) with rfl | hx
      · rw [hb]
        simp [hs]
      · have h := hinv x
        simp at h
        simp [hx, h]
    have hb : batchSeen.contains (jobId j) = false := by
      rw [hinv (jobId j), hs, he]; rfl
    rw [hb, hs, he]
    simp only [Bool.false_or, Bool.not_false, Bool.true_and,
      Bool.false_eq_true, if_false, if_true]
    show _ :: _ = _ :: _
    congr 1
    apply ih
    intro x
    rcases eq_or_ne x (jobId j) with rfl | hx
    · simp [hs]
    · have h := hinv x
      simp at h
      simp [hx, h]

/-- C1: `filter_new_jobs` returns exactly those input listings whose
Fingerprint is neither already persisted in the seen store nor equal to the
Fingerprint of any earlier listing of the same batch — so of several batch
listings sharing a Fingerprint only the first in input order is returned —
each surviving listing being the input record with `_job_id` set to its
Fingerprint. -/
theorem filter_new_jobs_exactly_new (store : Store) (jobs : List Job) :
    filter_new_jobs store jobs = (newSel store jobs []).map withJobId :=
  filterNewGo_eq_newSel store jobs [] [] (fun x => by simp)

example :
    filter_new_jobs [] [sampleJob, sampleJobAlt, sampleJob] =
      [withJobId sampleJob] := by
  decide

/-! ## C3: stage order inside one poll -/

/-- Counterexample to C3 as stated: on a singleton batch against an empty
store, `process_jobs` runs the `mark_seen` stage strictly **before** the
hand-off to the notification collaborator (`storage.mark_jobs_seen(new_jobs)`
precedes `notifier.notify(new_jobs)` in `src/main.py`), so `markSeen` is not
invoked "only after" the notification hand-off. -/
theorem process_jobs_mark_before_notify :
    (process_jobs [sampleJob] {} [] true "JobSpy" false 0).2.2.findIdx
        isMarkSeenEv <
      (process_jobs [sampleJob] {} [] true "JobSpy" false 0).2.2.findIdx
        isNotifyEv ∧
    (process_jobs [sampleJob] {} [] true "JobSpy" false 0).2.2.any
        isNotifyEv = true := by
  decide

/-- C3 as amended: on every non-empty poll result the stages run in the
strict order filter → dedup → `markSeen` → notification hand-off; the
notification step is attempted only when survivors exist, and `markSeen`
receives exactly the listings handed to the notification step. -/
theorem process_jobs_stage_order (jobs : List Job) (config : Config)
    (store : Store) (nr : Bool) (source : String) (flag : Bool) (now : Int)
    (h : jobs.isEmpty = false) :
    (process_jobs jobs config store nr source flag now).2.2 =
      [PipeEvent.filterStage (pipelineFiltered jobs config),
       PipeEvent.dedupStage (pipelineSurvivors jobs config store)] ++
      (if (pipelineSurvivors jobs config store).isEmpty then []
       else [PipeEvent.markSeenStage (pipelineSurvivors jobs config store),
             PipeEvent.notifyStage (pipelineSurvivors jobs config store)])
    := by
  simp [process_jobs, h, pipelineFiltered, pipelineSurvivors]

/-- Witness for the amended C3 on a concrete non-empty poll. -/
theorem process_jobs_stage_order_witness :
    (process_jobs [sampleJob] {} [] true "JobSpy" false 0).2.2 =
      [PipeEvent.filterStage [sampleJob],
       PipeEvent.dedupStage [withJobId sampleJob],
       PipeEvent.markSeenStage [withJobId sampleJob],
       PipeEvent.notifyStage [withJobId sampleJob]] := by
  rw [process_jobs_stage_order [sampleJob] {} [] true "JobSpy" false 0
    (by decide)]
  decide

/-! ## C4: scheduler interval bookkeeping -/

/-- Counterexample to C4 as stated: a due JobSpy poll whose scrape raises a
handled error leaves `last_jobspy_run` at its old value instead of setting
it to `now` — in `src/main.py` the `last_jobspy_run = now` assignment sits
inside the `try` block after the poll, so a caught failure skips it and the
source is retried on the very next 60-second tick rather than after its
interval. -/
theorem scheduler_failed_poll_keeps_timestamp :
    (schedulerTick ⟨0, 0, []⟩ 7200 ["linkedin"] false 3600 21600 {}
        (.error "JobSpy error: boom") (.ok []) false true).last_jobspy_run
      = 0 ∧
    (0 : Int) ≠ 7200 := by
  decide

/-- C4 as amended: for a due source family the scheduler advances its
last-poll timestamp to `now` only when the poll succeeds; after a handled
failure the timestamp is left unchanged, so the family is due again at the
next tick instead of waiting out a fresh interval. -/
theorem scheduler_timestamp_on_success_only (st : SchedulerState) (now : Int)
    (sites : List String) (je : Bool) (ji1 ji2 : Int) (config : Config)
    (jr1 jr2 : Except String (List Job)) (flag nr : Bool)
    (hdue1 : sites ≠ [] ∧ ji1 ≤ now - st.last_jobspy_run)
    (hdue2 : je = true ∧ ji2 ≤ now - st.last_jooble_run) :
    ((∀ e, jr1 = .error e →
        (schedulerTick st now sites je ji1 ji2 config jr1 jr2 flag
          nr).last_jobspy_run = st.last_jobspy_run) ∧
     (∀ jobs, jr1 = .ok jobs →
        (schedulerTick st now sites je ji1 ji2 config jr1 jr2 flag
          nr).last_jobspy_run = now) ∧
     (∀ e, jr2 = .error e →
        (schedulerTick st now sites je ji1 ji2 config jr1 jr2 flag
          nr).last_jooble_run = st.last_jooble_run) ∧
     (∀ jobs, jr2 = .ok jobs →
        (schedulerTick st now sites je ji1 ji2 config jr1 jr2 flag
          nr).last_jooble_run = now)) := by
  cases jr1 <;> cases jr2 <;>
    simp [schedulerTick, hdue1.1, hdue1.2, hdue2.1, hdue2.2]

/-- Witness for the amended C4: at time 7200 both families are due; the
JobSpy poll fails (timestamp stays 0), the Jooble poll succeeds (timestamp
becomes 7200). -/
theorem scheduler_timestamp_on_success_only_witness :
    (schedulerTick ⟨0, 0, []⟩ 7200 ["linkedin"] true 3600 3600 {}
        (.error "boom") (.ok []) false true).last_jobspy_run = 0 ∧
    (schedulerTick ⟨0, 0, []⟩ 7200 ["linkedin"] true 3600 3600 {}
        (.error "boom") (.ok []) false true).last_jooble_run = 7200 := by
  have h := scheduler_timestamp_on_success_only ⟨0, 0, []⟩ 7200 ["linkedin"]
    true 3600 3600 {} (.error "boom") (.ok []) false true
    (by constructor <;> decide) (by constructor <;> decide)
  exact ⟨h.1 "boom" rfl, h.2.2.2 [] rfl⟩

/-! ## C6: retriever backoff under sustained rate-limiting -/

/-- When every remaining attempt fails with a rate-limit signal, the
`scrape_site` loop sleeps `delay * backoff ^ attempt` once per attempt (the
last such sleep is followed by loop exit), ends with the empty row list,
and has or-ed `site == "linkedin"` into the sticky flag iff at least one
attempt ran. -/
theorem scrapeLoop_all_rate_limited (site : String) (d b : ℚ) (m : Nat)
    (outcomes : Nat → ScrapeOutcome) :
    ∀ (attempts : List Nat) (flag : Bool) (sleeps : List ℚ),
      (∀ a ∈ attempts, ∃ msg, outcomes a = .error msg ∧
        isRateLimitMsg msg = true) →
      scrapeLoop site d b m outcomes attempts flag sleeps =
        ⟨[], sleeps ++ attempts.map (fun a => d * b ^ a),
          flag || (!attempts.isEmpty && (site == "linkedin"))⟩ := by
  intro attempts
  induction attempts with
  | nil => intro flag sleeps _; simp [scrapeLoop]
  | cons a rest ih =>
    intro flag sleeps h
    obtain ⟨msg, hmsg, hrl⟩ := h a (List.mem_cons_self a rest)
    rw [scrapeLoop, hmsg]
    simp only [hrl, if_true]
    rw [ih _ _ (fun x hx => h x (List.mem_cons_of_mem a hx))]
    simp only [List.map_cons, List.isEmpty_cons, List.append_assoc,
      List.singleton_append, Bool.not_false, Bool.true_and]
    refine congrArg (ScrapeResult.mk _ _) ?_
    cases site == "linkedin" <;> cases flag <;> cases rest.isEmpty <;> rfl

/-- C6: when every attempt of `scrape_site` fails with a rate-limit signal,
the retriever sleeps `base_delay × backoff ^ attempt` after each attempt
(for `base_delay = 1, backoff = 2, max_retries = 3`: 1, 2, 4), returns the
empty list after exhausting all `max_retries` attempts instead of raising,
and leaves the sticky `linkedin_429` flag set when the site is the
professional-network source `"linkedin"`. -/
theorem scrape_site_rate_limit_backoff (site : String) (d b : ℚ) (m : Nat)
    (outcomes : Nat → ScrapeOutcome) (flag0 : Bool) (hpos : 0 < m)
    (hall : ∀ a < m, ∃ msg, outcomes a = .error msg ∧
      isRateLimitMsg msg = true) :
    (scrape_site site d b m outcomes flag0).rows = [] ∧
    (scrape_site site d b m outcomes flag0).sleeps =
      (List.range m).map (fun a => d * b ^ a) ∧
    (site = "linkedin" →
      (scrape_site site d b m outcomes flag0).linkedin_429 = true) := by
  rw [scrape_site, scrapeLoop_all_rate_limited site d b m outcomes
    (List.range m) flag0 [] (fun a ha => hall a (List.mem_range.mp ha))]
  refine ⟨rfl, by simp, ?_⟩
  intro hsite
  subst hsite
  have : (List.range m).isEmpty = false := by
    rw [List.isEmpty_eq_false_iff_exists_mem]
    exact ⟨0, List.mem_range.mpr hpos⟩
  simp [this]

/-- Witness for C6: the spec's scenario — `base_delay = 1`, `backoff = 2`,
`max_retries = 3`, three straight HTTP 429 failures on the
professional-network source. -/
theorem scrape_site_rate_limit_backoff_witness :
    (scrape_site "linkedin" 1 2 3
      (fun _ => .error "HTTP Error 429: Too Many Requests") false).rows = []
    ∧
    (scrape_site "linkedin" 1 2 3
      (fun _ => .error "HTTP Error 429: Too Many Requests") false).sleeps =
      [1, 2, 4] ∧
    (scrape_site "linkedin" 1 2 3
      (fun _ => .error "HTTP Error 429: Too Many Requests")
      false).linkedin_429 = true := by
  have h := scrape_site_rate_limit_backoff "linkedin" 1 2 3
    (fun _ => .error "HTTP Error 429: Too Many Requests") false
    (by decide)
    (fun a _ => ⟨"HTTP Error 429: Too Many Requests", rfl, by decide⟩)
  refine ⟨h.1, ?_, h.2.2 rfl⟩
  rw [h.2.1]
  norm_num [List.range_succ]

/-! ## C5: case/whitespace normalization of the Fingerprint -/

/-- Counterexample to C5 as stated: the triples `("a ", "b", "c")` and
`("a", "b", "c")` differ only in whitespace surrounding the url field —
their per-field case-normalized, whitespace-trimmed triples coincide — yet
`generate_job_id` hashes the raw strings `"a |b|c"` and `"a|b|c"`, whose
interior space survives the whole-string `strip()`, and returns different
Fingerprints. -/
theorem generate_job_id_field_ws_cex :
    specNormalizedTriple "a " "b" "c" = specNormalizedTriple "a" "b" "c" ∧
    generate_job_id "a " "b" "c" ≠ generate_job_id "a" "b" "c" := by
  constructor
  · decide
  · decide

/-- Dropping a prefix that wholly satisfies the predicate. -/
theorem dropWhile_append_of_all (p : Char → Bool) (ws l : List Char)
    (h : ws.all p = true) :
    (ws ++ l).dropWhile p = l.dropWhile p := by
  induction ws with
  | nil => rfl
  | cons c ws ih =>
    simp only [List.all_cons, Bool.and_eq_true] at h
    simp [List.dropWhile_cons, h.1, ih h.2]

/-- A suffix after a surviving head is untouched by `dropWhile`. -/
theorem dropWhile_append_of_ne_nil (p : Char → Bool) (l ws : List Char)
    (h : l.dropWhile p ≠ []) :
    (l ++ ws).dropWhile p = l.dropWhile p ++ ws := by
  induction l with
  | nil => exact absurd rfl h
  | cons c l ih =>
    rcases Bool.eq_false_or_eq_true (p c) with hc | hc
    · rw [List.dropWhile_cons] at h
      simp only [hc, if_true] at h
      simp [List.dropWhile_cons, hc, ih h]
    · simp [List.dropWhile_cons, hc]

/-- Stripping ignores all-whitespace padding on either side. -/
theorem stripChars_pad (ws1 s ws2 : List Char)
    (h1 : ws1.all isPySpace = true) (h2 : ws2.all isPySpace = true) :
    stripChars (ws1 ++ s ++ ws2) = stripChars s := by
  unfold stripChars
  rw [List.append_assoc, dropWhile_append_of_all _ _ _ h1]
  by_cases hd : s.dropWhile isPySpace = []
  · have hall : s.all isPySpace = true := by
      rw [List.all_eq_true]
      intro x hx
      exact List.dropWhile_eq_nil_iff.mp hd x hx
    have hw2 : ws2.dropWhile isPySpace = [] := by
      rw [List.dropWhile_eq_nil_iff]
      intro x hx
      exact (List.all_eq_true.mp h2) x hx
    rw [dropWhile_append_of_all _ _ _ hall, hw2, hd]
  · rw [dropWhile_append_of_ne_nil _ _ _ hd, List.reverse_append,
      dropWhile_append_of_all _ _ _ (by rw [List.all_reverse]; exact h2)]

/-- Lowercasing fixes whitespace characters. -/
theorem pyLowerChar_of_space (c : Char) (h : isPySpace c = true) :
    pyLowerChar c = c := by
  unfold isPySpace at h
  simp only [Bool.or_eq_true, decide_eq_true_eq] at h
  rcases h with ((((h | h) | h) | h) | h) | h <;> subst h <;> decide

/-- Lowercasing keeps an all-whitespace list all-whitespace. -/
theorem map_pyLower_all_space (ws : List Char)
    (h : ws.all isPySpace = true) :
    (ws.map pyLowerChar).all isPySpace = true := by
  rw [List.all_eq_true] at h ⊢
  intro x hx
  rw [List.mem_map] at hx
  obtain ⟨c, hc, rfl⟩ := hx
  rw [pyLowerChar_of_space c (h c hc)]
  exact h c hc

/-- C5 as amended: `generate_job_id` collapses letter-case differences
anywhere in the triple, and whitespace at the two outer edges of the joined
string — before the url and after the title.  (Whitespace around the inner
field boundaries survives the whole-string `strip()` and changes the
Fingerprint, as the counterexample shows.) -/
theorem generate_job_id_case_edge_ws (u u' c c' t t' lead trail : String)
    (hu : pyLower u' = pyLower u) (hc : pyLower c' = pyLower c)
    (ht : pyLower t' = pyLower t)
    (hlead : lead.data.all isPySpace = true)
    (htrail : trail.data.all isPySpace = true) :
    generate_job_id (lead ++ u') c' (t' ++ trail) = generate_job_id u c t
    := by
  suffices h : normalizeRaw (lead ++ u') c' (t' ++ trail)
      = normalizeRaw u c t by
    unfold generate_job_id
    rw [h]
  have du : u'.data.map pyLowerChar = u.data.map pyLowerChar :=
    congrArg String.data hu
  have dc : c'.data.map pyLowerChar = c.data.map pyLowerChar :=
    congrArg String.data hc
  have dt : t'.data.map pyLowerChar = t.data.map pyLowerChar :=
    congrArg String.data ht
  unfold normalizeRaw pyStrip pyLower
  apply String.ext
  show stripChars ((lead ++ u' ++ "|" ++ c' ++ "|" ++ (t' ++ trail)).data.map
      pyLowerChar) =
    stripChars ((u ++ "|" ++ c ++ "|" ++ t).data.map pyLowerChar)
  have hdata : (lead ++ u' ++ "|" ++ c' ++ "|" ++ (t' ++ trail)).data.map
      pyLowerChar =
      lead.data.map pyLowerChar ++
        ((u ++ "|" ++ c ++ "|" ++ t).data.map pyLowerChar) ++
        trail.data.map pyLowerChar := by
    simp [List.map_append, du, dc, dt, List.append_assoc]
  rw [hdata]
  exact stripChars_pad _ _ _ (map_pyLower_all_space _ hlead)
    (map_pyLower_all_space _ htrail)

/-- Witness for the amended C5: uppercase variants with a leading space on
the url and a trailing space on the title collapse to the bare triple's
Fingerprint. -/
theorem generate_job_id_case_edge_ws_witness :
    generate_job_id (" " ++ "X") "B" ("C" ++ " ") =
      generate_job_id "x" "b" "c" :=
  generate_job_id_case_edge_ws "x" "X" "b" "B" "c" "C" " " " "
    (by decide) (by decide) (by decide) (by decide) (by decide)

/-! ## C10: what the pipeline stages do to listing records -/

/-- Counterexample to C10 as stated: `filter_new_jobs` writes
`job["_job_id"]` on every surviving listing (`src/storage.py` line 66), so
the records it returns are not field-for-field identical to its input. -/
theorem filter_new_jobs_rewrites_job_id :
    filter_new_jobs [] [sampleJob]
      = [{ sampleJob with _job_id := some "7c4a03fa094fe04c" }] ∧
    sampleJob._job_id = none ∧
    filter_new_jobs [] [sampleJob] ≠ [sampleJob] := by
  refine ⟨by decide, rfl, by decide⟩

/-- Every job `filter_new_jobs` emits is an input job tagged with its
Fingerprint. -/
theorem filterNewGo_mem (store : Store) :
    ∀ (jobs : List Job) (seen : List String) (j' : Job),
      j' ∈ filterNewGo store jobs seen → ∃ j ∈ jobs, j' = withJobId j := by
  intro jobs
  induction jobs with
  | nil => intro seen j' h; simp [filterNewGo] at h
  | cons j rest ih =>
    intro seen j' h
    simp only [filterNewGo] at h
    rcases Bool.eq_false_or_eq_true
      (seen.contains (jobId j) || is_seen store (jobId j)) with hc | hc
    · rw [hc] at h
      simp only [if_true] at h
      obtain ⟨j0, hj0, hj0e⟩ := ih _ _ h
      exact ⟨j0, List.mem_cons_of_mem _ hj0, hj0e⟩
    · rw [hc] at h
      simp only [Bool.false_eq_true, if_false] at h
      rcases List.mem_cons.mp h with hhd | htl
      · exact ⟨j, List.mem_cons_self _ _, hhd⟩
      · obtain ⟨j0, hj0, hj0e⟩ := ih _ _ htl
        exact ⟨j0, List.mem_cons_of_mem _ hj0, hj0e⟩

/-- C10 as amended: the filter stage returns its surviving listings exactly
as they came in, and the dedup stage returns each surviving listing
unchanged except for the added `_job_id` tag holding its Fingerprint — no
stage touches any other field. -/
theorem pipeline_preserves_listings (store : Store) (jobs : List Job)
    (tm le : List String) (ro so : Bool) :
    (∀ j' ∈ (filter_jobs jobs tm le ro so).1, j' ∈ jobs) ∧
    (∀ j' ∈ filter_new_jobs store jobs, ∃ j ∈ jobs, j' = withJobId j) := by
  constructor
  · intro j' h
    rw [filter_jobs] at h
    split at h
    · exact h
    · rw [filterJobsGo_fst] at h
      exact (List.mem_filter.mp h).1
  · intro j' h
    exact filterNewGo_mem store jobs [] j' h

/-- Witness for the amended C10 at a concrete batch. -/
theorem pipeline_preserves_listings_witness :
    sampleJob ∈ [sampleJob] ∧
    ∃ j ∈ [sampleJob], withJobId sampleJob = withJobId j := by
  have h := pipeline_preserves_listings [] [sampleJob] [] [] false false
  exact ⟨h.1 sampleJob (by decide), h.2 (withJobId sampleJob) (by decide)⟩

end JobScrapper
